import Mathlib

/-!
Verification of the Prospecta license backend (src/main.py).

The persistent store is modelled as an explicit `DB` value holding the
`public.licenses` and `public.license_activations` tables.  Each FastAPI
endpoint becomes a pure function from the database (and the request data,
the current UTC time, and the configured admin secret) to either an
`HttpErr` — modelling a raised `HTTPException`, which rolls back the
transaction — or a response value paired with the updated database.

Timestamps are integers (seconds); `timedelta(hours=h)` is `h * 3600`.
-/

namespace Prospecta

/-- A raised `HTTPException status_code detail`. -/
structure HttpErr where
  status : Nat
  detail : String
deriving DecidableEq, Repr

/-- A row of `public.licenses`. -/
structure License where
  id : Nat
  license_key : String
  license_type : String
  status : String
  duration_hours : Option Int
  created_at : Int
  activated_at : Option Int
  expires_at : Option Int
  device_id : Option String
  buyer_email : Option String
deriving DecidableEq, Repr

/-- A row of `public.license_activations`. -/
structure Activation where
  license_id : Nat
  device_id : String
  buyer_email : Option String
  license_type : String
  activated_at : Int
  expires_at : Option Int
deriving DecidableEq, Repr

/-- Database state: the two tables plus the next generated primary key. -/
structure DB where
  licenses : List License
  activations : List Activation
  nextId : Nat
deriving DecidableEq, Repr

/-- `timedelta(hours=h)` in seconds. -/
def hoursToDelta (h : Int) : Int := h * 3600

/-- Whitespace removal from both ends of a char list. -/
def stripChars (cs : List Char) : List Char :=
  ((cs.dropWhile Char.isWhitespace).reverse.dropWhile Char.isWhitespace).reverse

/-- Python `str.strip()`. -/
def pyStrip (s : String) : String := ⟨stripChars s.data⟩

/-- Python `str.lower()`. -/
def pyLower (s : String) : String := ⟨s.data.map Char.toLower⟩

/-- `SELECT ... FROM public.licenses WHERE license_key = %s` (keys are unique). -/
def findLicense (db : DB) (key : String) : Option License :=
  db.licenses.find? (fun l => l.license_key == key)

/-- Fold choosing the row with the greatest `activated_at` (ORDER BY activated_at DESC LIMIT 1). -/
def pickLatest (xs : List Activation) : Option Activation :=
  xs.foldl (fun acc a =>
    match acc with
    | none => some a
    | some b => if b.activated_at < a.activated_at then some a else some b) none

/-- Latest activation of a given license for a given device and license type. -/
def latestActivationFor (db : DB) (lid : Nat) (dev : String) (lt : String) : Option Activation :=
  pickLatest (db.activations.filter
    (fun a => a.license_id == lid && a.device_id == dev && a.license_type == lt))

/-- Latest activation of a given license for a given license type, any device. -/
def latestActivationAny (db : DB) (lid : Nat) (lt : String) : Option Activation :=
  pickLatest (db.activations.filter
    (fun a => a.license_id == lid && a.license_type == lt))

/-- `int(lic.get("duration_hours") or (48 if ltype == "trial" else 720))` —
`or` falls back when the stored value is NULL or 0. -/
def effectiveHours (lic : License) : Int :=
  match lic.duration_hours with
  | some v => if v == 0 then (if lic.license_type == "trial" then 48 else 720) else v
  | none => if lic.license_type == "trial" then 48 else 720

/-- `(data.buyer_email or "").strip().lower() or None`. -/
def normEmail (e : Option String) : Option String :=
  match e with
  | none => none
  | some s =>
    let t := pyLower (pyStrip s)
    if t == "" then none else some t

/-- The body of `POST /license/activate` after pydantic parsing. -/
structure ActivateRequest where
  license_key : String
  device_id : String
  buyer_email : Option String
deriving DecidableEq, Repr

/-- Pydantic validation of `ActivateRequest`: `license_key` needs
`min_length=3`, `device_id` needs `min_length=6`; FastAPI turns a failed
model validation into a 422 response before the endpoint body runs. -/
def mkActivateRequest (k d : String) (e : Option String) : Except HttpErr ActivateRequest :=
  if k.length < 3 then .error ⟨422, "license_key too short"⟩
  else if d.length < 6 then .error ⟨422, "device_id too short"⟩
  else .ok ⟨k, d, e⟩

/-- The JSON object returned by a successful activate/validate call. -/
structure ActivateResponse where
  ok : Bool
  valid : Bool
  already_activated : Bool
  license_key : String
  license_type : String
  device_id : String
  activated_at : Option Int
  expires_at : Option Int
deriving DecidableEq, Repr

/-- `COALESCE(activated_at, %s)` update of `public.licenses` done by the
trial branch. -/
def trialMarkUsed (lid : Nat) (t : Int) (l : License) : License :=
  if l.id == lid then { l with activated_at := some (l.activated_at.getD t) } else l

/-- `COALESCE` update of `activated_at`, `device_id`, `buyer_email` done by
the monthly branch. -/
def monthlyBind (lid : Nat) (t : Int) (dev be : String) (l : License) : License :=
  if l.id == lid then
    { l with
      activated_at := some (l.activated_at.getD t)
      device_id := some (l.device_id.getD dev)
      buyer_email := some (l.buyer_email.getD be) }
  else l

/-- `activate_license` (`POST /license/activate`, src/main.py lines 252-448).
An `HTTPException` aborts the `with conn` block, so the transaction is
rolled back and no state change survives: errors carry no database. -/
def activate_license (db : DB) (data : ActivateRequest) (now : Int) :
    Except HttpErr (ActivateResponse × DB) :=
  let key := pyStrip data.license_key
  let device_id := pyStrip data.device_id
  let buyer_email := normEmail data.buyer_email
  if key == "" then .error ⟨400, "license_key obrigatorio"⟩
  else if device_id == "" then .error ⟨400, "device_id obrigatorio"⟩
  else
    match findLicense db key with
    | none => .error ⟨404, "Licenca nao encontrada"⟩
    | some lic =>
      if lic.status != "active" then
        .error ⟨403, "Licenca nao ativa, status " ++ lic.status⟩
      else
        let license_id := lic.id
        let hours := effectiveHours lic
        if lic.license_type == "trial" then
          -- TRIAL: each PC gets its own 48h window for this key
          match latestActivationFor db license_id device_id "trial" with
          | some act =>
            match act.expires_at with
            | some exp =>
              if now ≤ exp then
                .ok (⟨true, true, true, key, "trial", device_id,
                      some act.activated_at, some exp⟩, db)
              else .error ⟨403, "Trial expirado neste PC, 48h encerradas"⟩
            | none => .error ⟨403, "Trial expirado neste PC, 48h encerradas"⟩
          | none =>
            let activated_at := now
            let expires_at := now + hoursToDelta hours
            let newAct : Activation :=
              ⟨license_id, device_id, none, "trial", activated_at, some expires_at⟩
            let db1 : DB :=
              { db with
                activations := db.activations ++ [newAct]
                licenses := db.licenses.map (trialMarkUsed license_id activated_at) }
            .ok (⟨true, true, false, key, "trial", device_id,
                  some activated_at, some expires_at⟩, db1)
        else
          -- MONTHLY: requires buyer_email and locks the license to one PC
          match buyer_email with
          | none => .error ⟨400, "buyer_email obrigatorio para licenca mensal"⟩
          | some be =>
            let insertMonthly : Except HttpErr (ActivateResponse × DB) :=
              let activated_at := now
              let expires_at := now + hoursToDelta hours
              let newAct : Activation :=
                ⟨license_id, device_id, some be, "monthly", activated_at, some expires_at⟩
              let db1 : DB :=
                { db with
                  activations := db.activations ++ [newAct]
                  licenses := db.licenses.map (monthlyBind license_id activated_at device_id be) }
              .ok (⟨true, true, false, key, "monthly", device_id,
                    some activated_at, some expires_at⟩, db1)
            match latestActivationFor db license_id device_id "monthly" with
            | some actm =>
              match actm.expires_at with
              | some exp =>
                if now ≤ exp then
                  if pyLower (actm.buyer_email.getD "") != be then
                    .error ⟨403, "Email nao confere para esta licenca"⟩
                  else
                    .ok (⟨true, true, true, key, "monthly", device_id,
                          some actm.activated_at, some exp⟩, db)
                else .error ⟨403, "Licenca mensal expirada neste PC"⟩
              | none => .error ⟨403, "Licenca mensal expirada neste PC"⟩
            | none =>
              match latestActivationAny db license_id "monthly" with
              | some other =>
                if other.device_id != "" && other.device_id != device_id then
                  .error ⟨403, "Licenca mensal ja ativada em outro PC"⟩
                else insertMonthly
              | none => insertMonthly

/-- Request body of `POST /admin/create-license`. -/
structure AdminCreateLicense where
  api_key : String
  license_type : String
  duration_hours : Option Int
  license_key : Option String
  status : String
  buyer_email : Option String
deriving DecidableEq, Repr

/-- Request body of `POST /admin/reset-license`. -/
structure AdminResetLicense where
  api_key : String
  license_key : String
deriving DecidableEq, Repr

/-- Request body of `POST /admin/revoke-license`; `status` defaults to
`"blocked"` but any `LicenseStatus` value, `"active"` included, is accepted. -/
structure AdminRevokeLicense where
  api_key : String
  license_key : String
  status : String
deriving DecidableEq, Repr

/-- `(data.buyer_email or None)`. -/
def orNoneStr (e : Option String) : Option String :=
  match e with
  | none => none
  | some s => if s == "" then none else some s

/-- `admin_create_license` (src/main.py lines 125-159).  `admin` is the
configured `ADMIN_API_KEY`; `freshKey` stands for the `gen_license_key()`
output used when no explicit key is supplied.  A duplicate key makes the
INSERT fail with `UniqueViolation`, surfaced as HTTP 400. -/
def admin_create_license (admin : String) (db : DB) (data : AdminCreateLicense)
    (freshKey : String) (now : Int) : Except HttpErr (License × DB) :=
  if data.api_key != admin then .error ⟨401, "Nao autorizado"⟩
  else
    let key0 := pyStrip (data.license_key.getD "")
    let key := if key0 == "" then freshKey else key0
    let hours : Int :=
      match data.duration_hours with
      | some h => if 0 < h then h else (if data.license_type == "trial" then 48 else 720)
      | none => if data.license_type == "trial" then 48 else 720
    if (findLicense db key).isSome then
      .error ⟨400, "Licenca ja existe, license_key duplicada"⟩
    else
      let lic : License :=
        ⟨db.nextId, key, data.license_type, data.status, some hours, now,
         none, none, none, orNoneStr data.buyer_email⟩
      .ok (lic, ⟨db.licenses ++ [lic], db.activations, db.nextId + 1⟩)

/-- The per-row UPDATE done by `admin_revoke_license`. -/
def revokeRow (key st : String) (l : License) : License :=
  if l.license_key == key then { l with status := st } else l

/-- `admin_revoke_license` (src/main.py lines 203-220): a single UPDATE of
`status` on the row with the given key, returning key and new status. -/
def admin_revoke_license (admin : String) (db : DB) (data : AdminRevokeLicense) :
    Except HttpErr ((String × String) × DB) :=
  if data.api_key != admin then .error ⟨401, "Nao autorizado"⟩
  else
    let key := pyStrip data.license_key
    match findLicense db key with
    | none => .error ⟨404, "Licenca nao encontrada"⟩
    | some _ =>
      .ok ((key, data.status),
           { db with licenses := db.licenses.map (revokeRow key data.status) })

/-- The per-row UPDATE done by `admin_reset_license`. -/
def resetRow (lid : Nat) (l : License) : License :=
  if l.id == lid then { l with activated_at := none, expires_at := none, device_id := none }
  else l

/-- `admin_reset_license` (src/main.py lines 226-244): deletes every
activation of the license and nulls `activated_at`, `expires_at`,
`device_id` on the license row. -/
def admin_reset_license (admin : String) (db : DB) (data : AdminResetLicense) :
    Except HttpErr DB :=
  if data.api_key != admin then .error ⟨401, "Nao autorizado"⟩
  else
    let key := pyStrip data.license_key
    match findLicense db key with
    | none => .error ⟨404, "Licenca nao encontrada"⟩
    | some lic =>
      .ok { db with
            activations := db.activations.filter (fun a => a.license_id != lic.id)
            licenses := db.licenses.map (resetRow lic.id) }

/-- `b` occurs as a contiguous run inside `hay` (chars of an SQL LIKE scan). -/
def startsWithChars : List Char → List Char → Bool
  | [], _ => true
  | _ :: _, [] => false
  | a :: as, b :: bs => a == b && startsWithChars as bs

/-- Substring occurrence on char lists. -/
def containsChars (nee : List Char) : List Char → Bool
  | [] => nee.isEmpty
  | h :: hs => startsWithChars nee (h :: hs) || containsChars nee hs

/-- `field ILIKE '%s%'`: case-insensitive substring match. -/
def ilike (s field : String) : Bool :=
  containsChars (pyLower s).data (pyLower field).data

/-- The WHERE clause of `admin_list_licenses`. -/
def matchesSearch (s : String) (l : License) : Bool :=
  ilike s l.license_key ||
    (match l.buyer_email with
     | some b => ilike s b
     | none => false)

/-- Insert into a list kept sorted by decreasing `created_at`. -/
def insertByCreatedDesc (l : License) : List License → List License
  | [] => [l]
  | x :: xs =>
    if x.created_at < l.created_at then l :: x :: xs
    else x :: insertByCreatedDesc l xs

/-- `ORDER BY created_at DESC`. -/
def sortByCreatedDesc (xs : List License) : List License :=
  xs.foldr insertByCreatedDesc []

/-- Response of `GET /admin/licenses`. -/
structure ListLicensesResult where
  total : Nat
  limit : Int
  offset : Int
  items : List License
deriving DecidableEq, Repr

/-- `admin_list_licenses` (src/main.py lines 165-197): clamps `limit` into
`[1, 1000]` and `offset` to `≥ 0`, filters with ILIKE on key and buyer
email, orders by `created_at DESC`, pages, and reports the clamped values. -/
def admin_list_licenses (admin : String) (db : DB) (api_key : String)
    (search : Option String) (limit offset : Int) : Except HttpErr ListLicensesResult :=
  if api_key != admin then .error ⟨401, "Nao autorizado"⟩
  else
    let limit1 := max 1 (min limit 1000)
    let offset1 := max 0 offset
    let s := pyStrip (search.getD "")
    let flt := if s == "" then db.licenses else db.licenses.filter (matchesSearch s)
    let items := ((sortByCreatedDesc flt).drop offset1.toNat).take limit1.toNat
    .ok ⟨flt.length, limit1, offset1, items⟩

/-- `GET /license/validate` — builds an `ActivateRequest` and delegates to
`activate_license` (src/main.py lines 451-454). -/
def validate_license (db : DB) (key device_id : String) (buyer_email : Option String)
    (now : Int) : Except HttpErr (ActivateResponse × DB) :=
  match mkActivateRequest key device_id buyer_email with
  | .error e => .error e
  | .ok data => activate_license db data now

/-- The full `POST /license/activate` pipeline: pydantic parsing of the
request body followed by the endpoint body. -/
def activate_endpoint (db : DB) (key device_id : String) (buyer_email : Option String)
    (now : Int) : Except HttpErr (ActivateResponse × DB) :=
  match mkActivateRequest key device_id buyer_email with
  | .error e => .error e
  | .ok data => activate_license db data now

/-- Equality of call results is decidable, so witnesses can be checked by
evaluation. -/
instance instDecEqExcept {ε α : Type} [DecidableEq ε] [DecidableEq α] :
    DecidableEq (Except ε α) := fun x y =>
  match x, y with
  | .ok a, .ok b =>
    if h : a = b then isTrue (by rw [h])
    else isFalse (fun hc => h (Except.ok.inj hc))
  | .ok _, .error _ => isFalse (fun hc => Except.noConfusion hc)
  | .error _, .ok _ => isFalse (fun hc => Except.noConfusion hc)
  | .error a, .error b =>
    if h : a = b then isTrue (by rw [h])
    else isFalse (fun hc => h (Except.error.inj hc))

/-- `True` iff the call returned a response instead of raising. -/
def exceptOk {α : Type} (r : Except HttpErr α) : Bool :=
  match r with
  | .ok _ => true
  | .error _ => false

/-- The HTTP status of a raised exception, `none` on success. -/
def errStatus {α : Type} (r : Except HttpErr α) : Option Nat :=
  match r with
  | .ok _ => none
  | .error e => some e.status

/-- `timedelta(days=d)` in seconds. -/
def daysToDelta (d : Int) : Int := d * 86400

/-- Modelled from the spec: the License record of §3 as used by the
`extend` operation of the License Lifecycle Manager (§4.1), which is part
of the Payment Reconciler renewal path and is absent from src/main.py. -/
structure SpecLicense where
  key : String
  plan : String
  issued_at : Int
  expires_at : Int
  active : Bool
  revoked : Bool
  device_id : Option String
  activated_at : Option Int
deriving DecidableEq, Repr

/-- Modelled from the spec: `extend(key, days)` (§4.1) — invoked by the
Payment Reconciler on a confirmed payment; absent from src/main.py.  New
expiration is `max(current_expires_at, now()) + days`, `active` is set to
`true`, and `device_id` is not altered. -/
def extend (lic : SpecLicense) (days : Int) (now : Int) : SpecLicense :=
  { lic with
    expires_at := max lic.expires_at now + daysToDelta days
    active := true }

/-! Concrete states used by counterexamples and witnesses. -/

/-- An empty database. -/
def db0 : DB := ⟨[], [], 1⟩

/-- A freshly created, active trial license. -/
def licT : License := ⟨1, "TRIALKEY", "trial", "active", some 48, 0, none, none, none, none⟩

/-- Database holding just `licT`. -/
def dbT : DB := ⟨[licT], [], 2⟩

/-- The trial activation created for device `deviceAAAA` at time 0. -/
def actA : Activation := ⟨1, "deviceAAAA", none, "trial", 0, some 172800⟩

/-- `licT` after its first activation marked `activated_at`. -/
def licT1 : License := ⟨1, "TRIALKEY", "trial", "active", some 48, 0, some 0, none, none, none⟩

/-- State after `deviceAAAA` activated the trial key at time 0. -/
def dbT1 : DB := ⟨[licT1], [actA], 2⟩

/-- Response of the first trial activation on `dbT`. -/
def respA : ActivateResponse :=
  ⟨true, true, false, "TRIALKEY", "trial", "deviceAAAA", some 0, some 172800⟩

/-- The trial activation created for the second device at time 3600. -/
def actB : Activation := ⟨1, "deviceBBBB", none, "trial", 3600, some 176400⟩

/-- State after `deviceBBBB` also activated the same trial key. -/
def dbT2 : DB := ⟨[licT1], [actA, actB], 2⟩

/-- Response of the second device's trial activation. -/
def respB : ActivateResponse :=
  ⟨true, true, false, "TRIALKEY", "trial", "deviceBBBB", some 3600, some 176400⟩

/-- A freshly created, active monthly license. -/
def licM : License := ⟨1, "MONTHKEY", "monthly", "active", some 720, 0, none, none, none, none⟩

/-- The monthly activation bound to `deviceAAAA` with email `a@b.c`. -/
def actMA : Activation := ⟨1, "deviceAAAA", some "a@b.c", "monthly", 0, some 2592000⟩

/-- Monthly license already activated on `deviceAAAA`. -/
def dbM : DB := ⟨[licM], [actMA], 2⟩

/-- Response of re-validating the bound monthly device. -/
def respMA : ActivateResponse :=
  ⟨true, true, true, "MONTHKEY", "monthly", "deviceAAAA", some 0, some 2592000⟩

/-- A monthly license whose row carries a non-null `expires_at`. -/
def licX : License :=
  ⟨1, "RESETKEY", "monthly", "active", some 720, 0, some 5, some 100, some "deviceAAAA", some "a@b.c"⟩

/-- Database holding `licX` and its activation. -/
def dbX : DB := ⟨[licX], [actMA], 2⟩

/-- `licX` after `admin_reset_license`. -/
def licX1 : License :=
  ⟨1, "RESETKEY", "monthly", "active", some 720, 0, none, none, none, some "a@b.c"⟩

/-- `dbX` after `admin_reset_license`. -/
def dbX1 : DB := ⟨[licX1], [], 2⟩

/-- The trial license created by the C3 counterexample call. -/
def licC3 : License := ⟨1, "ABCKEY", "trial", "active", some 48, 7, none, none, none, none⟩

/-- Database after the C3 counterexample create call. -/
def dbC3 : DB := ⟨[licC3], [], 2⟩

/-- `licT` with status set to `blocked` by a revoke call. -/
def licTblocked : License := ⟨1, "TRIALKEY", "trial", "blocked", some 48, 0, none, none, none, none⟩

/-- `dbT` after revocation. -/
def dbTblocked : DB := ⟨[licTblocked], [], 2⟩

/-- The license columns untouched by `admin_reset_license`. -/
def otherFields (l : License) :
    String × String × String × Option Int × Int × Option String :=
  (l.license_key, l.license_type, l.status, l.duration_hours, l.created_at, l.buyer_email)

/-!  Theorems. -/

/-- `revokeRow` never changes the key column. -/
theorem revokeRow_key (k s : String) (l : License) :
    (revokeRow k s l).license_key = l.license_key := by
  unfold revokeRow; split <;> rfl

/-- `resetRow` never changes the key column. -/
theorem resetRow_key (lid : Nat) (l : License) :
    (resetRow lid l).license_key = l.license_key := by
  unfold resetRow; split <;> rfl

/-- `find?` by key over the revoke UPDATE: the update preserves
`license_key`, so it commutes with the lookup. -/
theorem find_map_revokeRow (xs : List License) (k s : String) :
    (xs.map (revokeRow k s)).find? (fun l => l.license_key == k) =
      (xs.find? (fun l => l.license_key == k)).map (revokeRow k s) := by
  induction xs with
  | nil => rfl
  | cons x xs ih =>
    by_cases hx : (x.license_key == k) = true
    · simp [List.find?, revokeRow_key, hx]
    · simp [List.find?, revokeRow_key, hx, ih]

/-- `find?` by key over the reset UPDATE: the update preserves
`license_key`, so it commutes with the lookup. -/
theorem find_map_resetRow (xs : List License) (k : String) (lid : Nat) :
    (xs.map (resetRow lid)).find? (fun l => l.license_key == k) =
      (xs.find? (fun l => l.license_key == k)).map (resetRow lid) := by
  induction xs with
  | nil => rfl
  | cons x xs ih =>
    by_cases hx : (x.license_key == k) = true
    · simp [List.find?, resetRow_key, hx]
    · simp [List.find?, resetRow_key, hx, ih]

/-- C1: on src/main.py the claim fails — an ordinary business-rule
rejection is signalled as an `HTTPException`, not as a structured
decision.  Concretely, validating an unknown key raises HTTP 404. -/
theorem C1_counterexample :
    activate_license db0 ⟨"ABC123", "device-001", none⟩ 0 =
      Except.error ⟨404, "Licenca nao encontrada"⟩ := by
  decide

/-- C1 (amended): every rejection of `activate_license` surfaces as an
`HTTPException` with status 400, 403 or 404, and every non-exceptional
return has `ok = true` and `valid = true`; there is no structured
`valid=false` decision and no closed `reason` set. -/
theorem C1_rejections_are_http_errors (db : DB) (req : ActivateRequest) (now : Int) :
    (∀ resp db2, activate_license db req now = Except.ok (resp, db2) →
      resp.ok = true ∧ resp.valid = true) ∧
    (∀ e, activate_license db req now = Except.error e →
      e.status = 400 ∨ e.status = 403 ∨ e.status = 404) := by
  constructor
  · intro resp db2 h
    simp only [activate_license] at h
    repeat' split at h
    all_goals
      first
        | (injection h with h1
           injection h1 with h2 h3
           subst h2
           exact ⟨rfl, rfl⟩)
        | injection h
  · intro e h
    simp only [activate_license] at h
    repeat' split at h
    all_goals
      first
        | (injection h with h1
           subst h1
           simp)
        | injection h

/-- C1 witness: the amended theorem applied to a successful trial
activation and to the 404 rejection of an unknown key. -/
theorem C1_witness :
    (respA.ok = true ∧ respA.valid = true) ∧
    ((404 : Nat) = 400 ∨ (404 : Nat) = 403 ∨ (404 : Nat) = 404) :=
  ⟨(C1_rejections_are_http_errors dbT ⟨"TRIALKEY", "deviceAAAA", none⟩ 0).1 respA dbT1
      (by decide),
   (C1_rejections_are_http_errors db0 ⟨"ABC123", "device-001", none⟩ 0).2
      ⟨404, "Licenca nao encontrada"⟩ (by decide)⟩

/-- C2: on src/main.py the claim fails for trial licenses — after
`deviceAAAA` has activated the trial key, a validation from the distinct
`deviceBBBB` returns `valid = true` with its own fresh 48h window instead
of `device_mismatch`. -/
theorem C2_counterexample :
    activate_license dbT ⟨"TRIALKEY", "deviceAAAA", none⟩ 0 = Except.ok (respA, dbT1) ∧
    activate_license dbT1 ⟨"TRIALKEY", "deviceBBBB", none⟩ 3600 = Except.ok (respB, dbT2) ∧
    respB.valid = true := by
  refine ⟨by decide, by decide, rfl⟩

/-- C2 (amended): only monthly licenses are device-locked, and the lock is
enforced through the activations table as an HTTP 403 exception: when a
monthly license's latest activation sits on another, different device and
the requesting device has no activation of its own, `activate_license`
never returns a response. -/
theorem C2_monthly_device_lock (db : DB) (req : ActivateRequest) (now : Int)
    (lic : License) (a : Activation) :
    findLicense db (pyStrip req.license_key) = some lic →
    lic.license_type = "monthly" →
    latestActivationFor db lic.id (pyStrip req.device_id) "monthly" = none →
    latestActivationAny db lic.id "monthly" = some a →
    a.device_id ≠ "" →
    a.device_id ≠ pyStrip req.device_id →
    exceptOk (activate_license db req now) = false := by
  intro h1 h2 h3 h4 h5 h6
  cases hres : activate_license db req now with
  | error e => rfl
  | ok p =>
    exfalso
    simp only [activate_license] at hres
    repeat' split at hres
    all_goals simp_all

/-- C2 witness: the monthly lock rejects `deviceBBBB` after `deviceAAAA`
holds the only activation. -/
theorem C2_witness :
    exceptOk (activate_license dbM ⟨"MONTHKEY", "deviceBBBB", some "a@b.c"⟩ 10) = false :=
  C2_monthly_device_lock dbM ⟨"MONTHKEY", "deviceBBBB", some "a@b.c"⟩ 10 licM actMA
    (by decide) rfl (by decide) (by decide) (by decide) (by decide)

/-- C3: on src/main.py the claim fails — creating a trial license at time 7
stores `created_at = 7` but leaves `expires_at` NULL instead of setting it
to `7 + 48h`; the horizon is stored as `duration_hours` and only applied at
first activation. -/
theorem C3_counterexample :
    admin_create_license "ADMINKEY1" db0
        ⟨"ADMINKEY1", "trial", none, some "ABCKEY", "active", none⟩ "GENKEY" 7 =
      Except.ok (licC3, dbC3) ∧
    licC3.created_at = 7 ∧ licC3.expires_at = none ∧
    licC3.expires_at ≠ some (7 + hoursToDelta 48) := by
  refine ⟨by decide, rfl, rfl, by decide⟩

/-- C3 (amended): creating a license at time `t` sets `created_at = t`,
leaves `expires_at`, `activated_at` and `device_id` NULL, and stores
`duration_hours` — the requested positive duration, else 48 for trial and
720 (30 days) for monthly; expiration is only computed per device at first
activation. -/
theorem C3_create_stores_duration (admin : String) (db : DB) (data : AdminCreateLicense)
    (freshKey : String) (now : Int) (lic : License) (db2 : DB) :
    admin_create_license admin db data freshKey now = Except.ok (lic, db2) →
    lic.created_at = now ∧ lic.expires_at = none ∧ lic.activated_at = none ∧
      lic.device_id = none ∧
      lic.duration_hours = some (match data.duration_hours with
        | some h => if 0 < h then h else (if data.license_type == "trial" then 48 else 720)
        | none => if data.license_type == "trial" then 48 else 720) := by
  intro hok
  simp only [admin_create_license] at hok
  repeat' split at hok
  all_goals
    first
      | (injection hok with h1
         injection h1 with h2 h3
         subst h2
         simp_all
         try rw [if_neg (by omega)])
      | injection hok

/-- C3 witness: the amended theorem at the concrete create call of the
counterexample. -/
theorem C3_witness :
    licC3.created_at = 7 ∧ licC3.expires_at = none ∧ licC3.activated_at = none ∧
      licC3.device_id = none ∧ licC3.duration_hours = some 48 :=
  C3_create_stores_duration "ADMINKEY1" db0
    ⟨"ADMINKEY1", "trial", none, some "ABCKEY", "active", none⟩ "GENKEY" 7 licC3 dbC3
    (by decide)

/-- C4: on src/main.py the claim fails — revocation only writes the
`status` column, and the same endpoint accepts `status = "active"`, which
un-revokes the license: after revoking and then setting the status back,
validation succeeds again, so revocation is not terminal (and the
rejection while blocked is an HTTP 403, not a `revoked` reason). -/
theorem C4_counterexample :
    admin_revoke_license "ADMINKEY1" dbT ⟨"ADMINKEY1", "TRIALKEY", "blocked"⟩ =
      Except.ok (("TRIALKEY", "blocked"), dbTblocked) ∧
    activate_license dbTblocked ⟨"TRIALKEY", "deviceAAAA", none⟩ 0 =
      Except.error ⟨403, "Licenca nao ativa, status blocked"⟩ ∧
    admin_revoke_license "ADMINKEY1" dbTblocked ⟨"ADMINKEY1", "TRIALKEY", "active"⟩ =
      Except.ok (("TRIALKEY", "active"), dbT) ∧
    activate_license dbT ⟨"TRIALKEY", "deviceAAAA", none⟩ 0 = Except.ok (respA, dbT1) ∧
    respA.valid = true := by
  refine ⟨by decide, by decide, by decide, by decide, rfl⟩

/-- C4 (amended): while a license's status is any value other than
`"active"` — in particular right after a revoke with the default
`"blocked"` — every validate call on that key is rejected with HTTP 403;
but the status can later be set back to `"active"` through the same
endpoint, so revocation is reversible, not terminal. -/
theorem C4_revoked_rejected_until_reactivated (admin : String) (db db2 : DB)
    (rdata : AdminRevokeLicense) (pair : String × String) (req : ActivateRequest)
    (now : Int) :
    admin_revoke_license admin db rdata = Except.ok (pair, db2) →
    rdata.status ≠ "active" →
    pyStrip req.license_key = pyStrip rdata.license_key →
    pyStrip req.license_key ≠ "" →
    pyStrip req.device_id ≠ "" →
    errStatus (activate_license db2 req now) = some 403 := by
  intro hrev hst hkeq hk hd
  simp only [admin_revoke_license] at hrev
  split at hrev
  · exact absurd hrev (by simp)
  · split at hrev
    · exact absurd hrev (by simp)
    · rename_i lic0 heq
      injection hrev with h1
      injection h1 with hpair hdb2
      subst hdb2
      have hk1 : (pyStrip req.license_key == "") = false := beq_eq_false_iff_ne.mpr hk
      have hd1 : (pyStrip req.device_id == "") = false := beq_eq_false_iff_ne.mpr hd
      have heq1 : List.find? (fun l => l.license_key == pyStrip rdata.license_key) db.licenses =
          some lic0 := heq
      have hlickey : (lic0.license_key == pyStrip rdata.license_key) = true := by
        have hp := List.find?_some heq1
        exact hp
      have hrow : revokeRow (pyStrip rdata.license_key) rdata.status lic0 =
          { lic0 with status := rdata.status } := by
        simp [revokeRow, hlickey]
      have hfind : findLicense
          { db with licenses := db.licenses.map (revokeRow (pyStrip rdata.license_key) rdata.status) }
          (pyStrip req.license_key) = some { lic0 with status := rdata.status } := by
        unfold findLicense
        rw [hkeq]
        dsimp only
        rw [find_map_revokeRow, heq1, Option.map, hrow]
      simp [activate_license, errStatus, hk1, hd1, hfind, bne_iff_ne, hst]

/-- C4 witness: the amended theorem at the concrete revoke of the trial
key. -/
theorem C4_witness :
    errStatus (activate_license dbTblocked ⟨"TRIALKEY", "deviceAAAA", none⟩ 0) = some 403 :=
  C4_revoked_rejected_until_reactivated "ADMINKEY1" dbT dbTblocked
    ⟨"ADMINKEY1", "TRIALKEY", "blocked"⟩ ("TRIALKEY", "blocked")
    ⟨"TRIALKEY", "deviceAAAA", none⟩ 0 (by decide) (by decide) (by decide) (by decide)
    (by decide)

/-- C5: `extend` sets the new expiration to `max(current expires_at, now)
plus the renewal days`, re-activates the license, and leaves `device_id`
unchanged; in particular a renewal applied before expiry adds the full
period on top of the remaining time. -/
theorem C5_extend_preserves_remaining (lic : SpecLicense) (days now : Int) :
    (extend lic days now).expires_at = max lic.expires_at now + daysToDelta days ∧
    (extend lic days now).active = true ∧
    (extend lic days now).device_id = lic.device_id ∧
    (now ≤ lic.expires_at →
      (extend lic days now).expires_at = lic.expires_at + daysToDelta days) := by
  refine ⟨rfl, rfl, rfl, ?_⟩
  intro h
  simp [extend, max_eq_left h]

/-- C5 witness: a 30-day renewal at time 100 of a license expiring at
864000 yields 864000 + 30 days. -/
theorem C5_witness :
    (extend ⟨"ABC123", "monthly", 0, 864000, false, false, some "device-001", some 0⟩
        30 100).expires_at = 864000 + daysToDelta 30 :=
  (C5_extend_preserves_remaining
      ⟨"ABC123", "monthly", 0, 864000, false, false, some "device-001", some 0⟩
      30 100).2.2.2 (by decide)

/-- C6: on src/main.py the claim fails — `admin_reset_license` also nulls
`expires_at` (and deletes the license's activation rows), so a license row
whose `expires_at` was non-null loses it on reset. -/
theorem C6_counterexample :
    admin_reset_license "ADMINKEY1" dbX ⟨"ADMINKEY1", "RESETKEY"⟩ = Except.ok dbX1 ∧
    (findLicense dbX "RESETKEY").map License.expires_at = some (some 100) ∧
    (findLicense dbX1 "RESETKEY").map License.expires_at = some none ∧
    dbX.activations ≠ dbX1.activations := by
  refine ⟨by decide, by decide, by decide, by decide⟩

/-- C6 (amended): reset clears `device_id`, `activated_at` and also
`expires_at` to null on the target row and deletes every activation row of
the license; the remaining license columns — key, plan, status,
duration_hours, created_at, buyer_email — are unchanged on every row. -/
theorem C6_reset_frame (admin : String) (db db2 : DB) (data : AdminResetLicense)
    (lic : License) :
    admin_reset_license admin db data = Except.ok db2 →
    findLicense db (pyStrip data.license_key) = some lic →
    findLicense db2 (pyStrip data.license_key) =
        some { lic with device_id := none, activated_at := none, expires_at := none } ∧
    db2.licenses.map otherFields = db.licenses.map otherFields ∧
    db2.activations = db.activations.filter (fun a => a.license_id != lic.id) := by
  intro hrst hfound
  simp only [admin_reset_license] at hrst
  split at hrst
  · exact absurd hrst (by simp)
  · split at hrst
    · exact absurd hrst (by simp)
    · rename_i lic0 heq
      injection hrst with hdb2
      subst hdb2
      obtain rfl : lic0 = lic := Option.some.inj ((Eq.symm heq).trans hfound)
      have heq1 : List.find? (fun l => l.license_key == pyStrip data.license_key) db.licenses =
          some lic0 := heq
      refine ⟨?_, ?_, rfl⟩
      · unfold findLicense
        dsimp only
        rw [find_map_resetRow, heq1, Option.map, resetRow]
        simp
      · have hof : ∀ l, otherFields (resetRow lic0.id l) = otherFields l := by
          intro l
          unfold resetRow
          split <;> rfl
        dsimp only
        rw [List.map_map]
        simp [Function.comp, hof]

/-- C6 witness: the amended frame theorem at the concrete reset of
`RESETKEY`. -/
theorem C6_witness :
    findLicense dbX1 (pyStrip "RESETKEY") =
        some { licX with device_id := none, activated_at := none, expires_at := none } ∧
    dbX1.licenses.map otherFields = dbX.licenses.map otherFields ∧
    dbX1.activations = dbX.activations.filter (fun a => a.license_id != licX.id) :=
  C6_reset_frame "ADMINKEY1" dbX dbX1 ⟨"ADMINKEY1", "RESETKEY"⟩ licX (by decide) (by decide)

/-- C7: on src/main.py the claim fails — the schema only requires
`device_id` to have at least 6 characters (`min_length=6`), so the 7-char
device id `1234567` is not rejected: it validates successfully and
activates the trial, refuting the claimed 8-character minimum (and there
is no `MissingDevice` reason, only HTTP errors). -/
theorem C7_counterexample :
    validate_license dbT "TRIALKEY" "1234567" none 0 =
      Except.ok (⟨true, true, false, "TRIALKEY", "trial", "1234567", some 0, some 172800⟩,
        ⟨[licT1], [⟨1, "1234567", none, "trial", 0, some 172800⟩], 2⟩) ∧
    ("1234567" : String).length < 8 := by
  refine ⟨by decide, by decide⟩

/-- C7 (amended): pydantic rejects a `license_key` shorter than 3 or a
`device_id` shorter than 6 characters with HTTP 422 before the endpoint
body runs, and the endpoint rejects values that trim to empty with HTTP
400 before any lookup; there is no 8-character minimum and no
MissingKey/MissingDevice decision reasons. -/
theorem C7_input_validation (db : DB) (k d : String) (e : Option String) (now : Int) :
    (k.length < 3 ∨ d.length < 6 → errStatus (validate_license db k d e now) = some 422) ∧
    (3 ≤ k.length → 6 ≤ d.length → (pyStrip k = "" ∨ pyStrip d = "") →
      errStatus (validate_license db k d e now) = some 400) := by
  constructor
  · intro h
    unfold validate_license mkActivateRequest
    by_cases hk : k.length < 3
    · rw [if_pos hk]
      rfl
    · have hd : d.length < 6 := by omega
      rw [if_neg hk, if_pos hd]
      rfl
  · intro hk hd hor
    unfold validate_license mkActivateRequest
    rw [if_neg (by omega), if_neg (by omega)]
    unfold activate_license
    dsimp only
    by_cases hks : pyStrip k = ""
    · simp [beq_iff_eq.mpr hks, errStatus]
    · have h0 : pyStrip d = "" := by tauto
      have hk2 : (pyStrip k == "") = false := beq_eq_false_iff_ne.mpr hks
      have hd2 : (pyStrip d == "") = true := beq_iff_eq.mpr h0
      simp [hk2, hd2, errStatus]

/-- C7 witness: a 2-character key is rejected with 422; an all-blank
6-character device id is rejected with 400. -/
theorem C7_witness :
    errStatus (validate_license db0 "ab" "123456" none 0) = some 422 ∧
    errStatus (validate_license db0 "KEY" "      " none 0) = some 400 :=
  ⟨(C7_input_validation db0 "ab" "123456" none 0).1 (Or.inl (by decide)),
   (C7_input_validation db0 "KEY" "      " none 0).2 (by decide) (by decide)
      (Or.inr (by decide))⟩

/-- C8: `admin_list_licenses` clamps the limit into `[1, 1000]` and the
offset to be nonnegative, uses them for the page, and reports the clamped
values in the response. -/
theorem C8_list_clamps (admin : String) (db : DB) (api_key : String)
    (search : Option String) (limit offset : Int) (r : ListLicensesResult) :
    admin_list_licenses admin db api_key search limit offset = Except.ok r →
    r.limit = max 1 (min limit 1000) ∧ r.offset = max 0 offset ∧
    1 ≤ r.limit ∧ r.limit ≤ 1000 ∧ 0 ≤ r.offset ∧ r.items.length ≤ 1000 := by
  intro h
  simp only [admin_list_licenses] at h
  split at h
  · exact absurd h (by simp)
  · injection h with h1
    subst h1
    refine ⟨rfl, rfl, le_max_left 1 _, ?_, le_max_left 0 _, ?_⟩
    · exact max_le (by norm_num) (min_le_right limit 1000)
    · calc (((sortByCreatedDesc _).drop _).take (max 1 (min limit 1000)).toNat).length
          ≤ (max 1 (min limit 1000)).toNat := List.length_take_le _ _
        _ ≤ (1000 : Int).toNat :=
            Int.toNat_le_toNat (max_le (by norm_num) (min_le_right limit 1000))
        _ = 1000 := rfl

/-- C8 witness: the clamping theorem at limit 5000 and offset -3 on the
empty database. -/
theorem C8_witness :
    (1000 : Int) = max 1 (min 5000 1000) ∧ (0 : Int) = max 0 (-3) ∧
    (1 : Int) ≤ 1000 ∧ (1000 : Int) ≤ 1000 ∧ (0 : Int) ≤ 0 ∧
    ([] : List License).length ≤ 1000 :=
  C8_list_clamps "ADMINKEY1" db0 "ADMINKEY1" none 5000 (-3) ⟨0, 1000, 0, []⟩ (by decide)

/-- C9: `GET /license/validate` is definitionally `POST /license/activate`
— the same pydantic parsing followed by the same handler on the same
inputs, returning the same result and the same updated state; and a
successful validation that was not `already_activated` is not read-only:
it appends exactly one activation record. -/
theorem C9_validate_is_activate (db : DB) (k d : String) (e : Option String) (now : Int) :
    validate_license db k d e now = activate_endpoint db k d e now ∧
    (∀ resp db2, validate_license db k d e now = Except.ok (resp, db2) →
      resp.already_activated = false →
      db2.activations.length = db.activations.length + 1) := by
  refine ⟨rfl, ?_⟩
  intro resp db2 h hfresh
  unfold validate_license at h
  split at h
  · exact absurd h (by simp)
  · simp only [activate_license] at h
    repeat' split at h
    all_goals
      first
        | (injection h with h1
           injection h1 with h2 h3
           subst h2
           subst h3
           simp_all [List.length_append])
        | injection h

/-- C9 witness: the first trial activation on `dbT` adds one activation
row. -/
theorem C9_witness : dbT1.activations.length = dbT.activations.length + 1 :=
  (C9_validate_is_activate dbT "TRIALKEY" "deviceAAAA" none 0).2 respA dbT1 (by decide) rfl

/-- C10: for a monthly license, a validate call whose buyer email is
missing (or blank after trimming) is rejected with HTTP 400 before any
binding is written; and re-validating an already-activated, unexpired
device only returns a response when the supplied email equals the stored
activation email after trimming and lowercasing. -/
theorem C10_monthly_email_checks (db : DB) (req : ActivateRequest) (now : Int)
    (lic : License) :
    pyStrip req.license_key ≠ "" →
    pyStrip req.device_id ≠ "" →
    findLicense db (pyStrip req.license_key) = some lic →
    lic.status = "active" →
    lic.license_type = "monthly" →
    ((normEmail req.buyer_email = none →
        activate_license db req now =
          Except.error ⟨400, "buyer_email obrigatorio para licenca mensal"⟩) ∧
     (∀ a exp resp db2,
        latestActivationFor db lic.id (pyStrip req.device_id) "monthly" = some a →
        a.expires_at = some exp → now ≤ exp →
        activate_license db req now = Except.ok (resp, db2) →
        pyLower (a.buyer_email.getD "") = pyLower (pyStrip (req.buyer_email.getD "")))) := by
  intro hk hd hfound hst hty
  have hk1 : (pyStrip req.license_key == "") = false := beq_eq_false_iff_ne.mpr hk
  have hd1 : (pyStrip req.device_id == "") = false := beq_eq_false_iff_ne.mpr hd
  have hst1 : (lic.status != "active") = false := by simp [hst]
  have hty1 : (lic.license_type == "trial") = false := by simp [hty]
  constructor
  · intro hmail
    simp [activate_license, hk1, hd1, hfound, hst1, hty1, hmail]
  · intro a exp resp db2 hact hexp hnow hok
    simp only [activate_license, hk1, hd1, hfound, hst1, hty1] at hok
    simp only [Bool.false_eq_true, if_false, reduceCtorEq] at hok
    rcases hre : req.buyer_email with _ | s
    · rw [hre] at hok
      simp [normEmail] at hok
    · rw [hre] at hok
      simp only [normEmail] at hok
      split at hok
      · simp at hok
      · rename_i s2 heq2
        have hs2 : s2 = pyLower (pyStrip s) := by
          split at heq2
          · exact absurd heq2 (by simp)
          · exact (Option.some.inj heq2).symm
        rw [hact] at hok
        dsimp only at hok
        rw [hexp] at hok
        dsimp only at hok
        rw [if_pos hnow] at hok
        split at hok
        · simp at hok
        · rename_i hmatch
          have hbe : pyLower (a.buyer_email.getD "") = s2 := by simpa using hmatch
          rw [hs2] at hbe
          exact hbe

/-- C10 witness: without an email the monthly call fails with 400; with a
differently-cased, padded email ` A@B.C ` matching the stored `a@b.c`,
re-validation succeeds, and the theorem yields the normalised equality. -/
theorem C10_witness :
    activate_license dbM ⟨"MONTHKEY", "deviceAAAA", none⟩ 10 =
      Except.error ⟨400, "buyer_email obrigatorio para licenca mensal"⟩ ∧
    pyLower (actMA.buyer_email.getD "") = pyLower (pyStrip ((some " A@B.C ").getD "")) :=
  ⟨(C10_monthly_email_checks dbM ⟨"MONTHKEY", "deviceAAAA", none⟩ 10 licM
      (by decide) (by decide) (by decide) rfl rfl).1 rfl,
   (C10_monthly_email_checks dbM ⟨"MONTHKEY", "deviceAAAA", some " A@B.C "⟩ 10 licM
      (by decide) (by decide) (by decide) rfl rfl).2 actMA 2592000 respMA dbM
      (by decide) rfl (by decide) (by decide)⟩

end Prospecta
